import Mathlib

/-!
Shallow embedding of `src/main.py` of the pet_health_assistant repository
(a Streamlit pet-care app), together with theorems checking its
natural-language specification. Python strings are Lean `String`s; the
`float` form fields `age` and `weight` are abstracted by the decimal string
they render to in an f-string, since the program only ever interpolates
them into text and never computes with them; `datetime.now()` values are
passed in as explicit string parameters; the Groq network call is modelled
by an explicit outcome value (`Except` of either a raised exception or the
returned chat completion).
-/

set_option maxRecDepth 8192

namespace PetHealth

/-- Substring test on character lists: `subListB pat l` is `true` iff `pat`
occurs contiguously inside `l`. -/
def subListB (pat : List Char) : List Char → Bool
  | [] => pat.isEmpty
  | c :: rest => pat.isPrefixOf (c :: rest) || subListB pat rest

/-- `strContains s pat` : the string `pat` occurs contiguously in `s`. -/
def strContains (s pat : String) : Bool :=
  subListB pat.data s.data

/-- The `pet_info` dictionary assembled in `main` from the sidebar form.
The Python `float` fields `age` and `weight` are abstracted by the decimal
string their f-string interpolation renders to. -/
structure PetInfo where
  name : String
  type : String
  breed : String
  age : String
  weight : String
  health_conditions : String
  favorite_foods : String
  allergies : String
  timestamp : String
  deriving DecidableEq, Repr

/-- Python's `s or 'None'` on a string: the empty string is falsy, so it is
replaced by the literal `"None"`; any other string is returned unchanged. -/
def orNone (s : String) : String :=
  if s = "" then "None" else s

/-- The prompt built by `generate_diet_recommendation` (src/main.py lines 56-101). -/
def diet_prompt (p : PetInfo) : String :=
  "\n    Generate highly specific diet recommendations for:\n    Species: " ++ p.type
  ++ "\n    Breed: " ++ p.breed
  ++ "\n    Age: " ++ p.age
  ++ " years\n    Weight: " ++ p.weight
  ++ " kg\n" ++ "    Health Conditions: " ++ orNone p.health_conditions
  ++ "\n" ++ "    Allergies: " ++ orNone p.allergies
  ++ "\n    \n    Provide exact measurements and specific products where applicable. Format your response precisely as follows:\n\n    • Daily Caloric Requirements:\n      - Exact calories: [number] kcal/day\n      - Divided into [number] meals\n      - Calorie distribution: [% per meal]\n    \n    • Macronutrient Breakdown:\n      - Protein: [exact %]\n      - Fats: [exact %]\n      - Carbohydrates: [exact %]\n    \n    • Recommended Diet:\n      - Commercial Foods:\n        ∘ [specific brand and product name]\n        ∘ [exact portion size in grams]\n      - Fresh Foods:\n        ∘ [specific ingredient]\n        ∘ [exact portion in grams]\n    \n    • Feeding Schedule:\n      - Morning [exact time]: [exact amount in grams]\n      - Evening [exact time]: [exact amount in grams]\n    \n    • Required Supplements:\n      - [specific supplement name]\n      - [exact dosage]\n      - [frequency]\n    \n    • Foods to Strictly Avoid:\n      - [specific food]\n      - [reason for avoiding]\n    \n    • Special Considerations:\n      - [specific consideration based on breed/health]\n      - [actionable recommendation]\n    "

/-- The prompt built by `generate_care_recommendation` (src/main.py lines 106-164). -/
def care_prompt (p : PetInfo) : String :=
  "\n    Generate highly specific care recommendations for:\n    Species: " ++ p.type
  ++ "\n    Breed: " ++ p.breed
  ++ "\n    Age: " ++ p.age
  ++ " years\n    Weight: " ++ p.weight
  ++ " kg\n" ++ "    Health Conditions: " ++ orNone p.health_conditions
  ++ "\n    \n    Provide exact durations, frequencies, and specific products where applicable. Format your response precisely as follows:\n\n    • Exercise Requirements:\n      - Daily Duration: [exact minutes]\n      - Activity Breakdown:\n        ∘ [specific exercise type]: [exact minutes]\n        ∘ [intensity level]: [specific indicators]\n      - Rest Periods: [exact duration]\n    \n    • Grooming Protocol:\n      - Brushing:\n        ∘ [specific brush type]\n        ∘ [exact frequency]\n        ∘ [technique description]\n      - Bathing:\n        ∘ [specific shampoo type]\n        ∘ [exact frequency]\n        ∘ [water temperature]\n      - Nail Care:\n        ∘ [specific tool]\n        ∘ [exact frequency]\n    \n    • Health Monitoring:\n      - Vital Signs:\n        ∘ Normal Temperature Range: [exact range]\n        ∘ Normal Heart Rate: [exact range]\n        ∘ Normal Respiratory Rate: [exact range]\n      - Regular Checks:\n        ∘ [specific check]\n        ∘ [exact frequency]\n        ∘ [warning signs]\n    \n    • Behavioral Monitoring:\n      - Key Indicators:\n        ∘ [specific behavior]\n        ∘ [normal frequency/duration]\n        ∘ [warning signs]\n    \n    • Preventive Care Schedule:\n      - Vaccinations:\n        ∘ [specific vaccine]\n        ∘ [exact timing]\n      - Parasite Prevention:\n        ∘ [specific product]\n        ∘ [exact dosage and frequency]\n    \n    • Environment Requirements:\n      - Temperature: [exact range]\n      - Exercise Area: [specific dimensions]\n      - Rest Area: [specific requirements]\n    "

/-- The prompt built by `generate_emergency_guide` (src/main.py lines 169-180). -/
def emergency_prompt (p : PetInfo) : String :=
  "\n    Provide emergency care guidelines for a " ++ p.type
  ++ ", " ++ p.breed
  ++ ".\n    Include common emergency situations and immediate actions to take before reaching vet.\n    \n    Format as bullet points:\n    • Signs of Emergency:\n      - [sign 1]\n    • Immediate Actions:\n      - [action 1]\n    • When to Contact Vet:\n      - [situation 1]\n    "

/-- The prompt built by `generate_training_tips` (src/main.py lines 185-196). -/
def training_prompt (p : PetInfo) : String :=
  "\n    Provide training tips for a " ++ p.type
  ++ ", " ++ p.breed
  ++ ", " ++ p.age
  ++ " years old.\n    Focus on essential commands and behavior training.\n    \n    Format as bullet points:\n    • Basic Commands:\n      - [command]: [how to train]\n    • Behavior Training:\n      - [behavior]: [training method]\n    • Common Mistakes:\n      - [mistake to avoid]\n    "

/-- The prompt built by `generate_seasonal_care` (src/main.py lines 202-213);
`current_month` abstracts `datetime.now().strftime("%B")`. -/
def seasonal_prompt (current_month : String) (p : PetInfo) : String :=
  "\n    Provide seasonal care tips for " ++ current_month
  ++ " for a " ++ p.type
  ++ ", " ++ p.breed
  ++ ".\n    Include specific seasonal challenges and preparations.\n    \n    Format as bullet points:\n    • Seasonal Risks:\n      - [risk 1]\n    • Preventive Measures:\n      - [measure 1]\n    • Essential Items:\n      - [item 1]\n    "

/-- The prompt built by `analyze_previous_report` (src/main.py lines 272-287)
for the comparison category. -/
def analysis_prompt (current_pet_info previous_pet_info : PetInfo) : String :=
  "\n    Compare the following pet information and provide specific recommendations based on changes:\n    \n    Previous Report (" ++ previous_pet_info.timestamp
  ++ "):\n    Weight: " ++ previous_pet_info.weight
  ++ " kg\n    Health: " ++ orNone previous_pet_info.health_conditions
  ++ "\n    \n    Current Information:\n    Weight: " ++ current_pet_info.weight
  ++ " kg\n    Health: " ++ orNone current_pet_info.health_conditions
  ++ "\n    \n    Format your response as bullet points highlighting:\n    • Notable Changes\n    • Recommendations Based on Changes\n    • Areas to Monitor\n    "

/-! ## Recommendation Client (`generate_recommendation`) -/

/-- `message.content` of one completion choice of the chat API response. -/
structure Message where
  content : String
  deriving DecidableEq, Repr

structure Choice where
  message : Message
  deriving DecidableEq, Repr

/-- The chat completion object returned by
`groq_client.chat.completions.create`. -/
structure ChatCompletion where
  choices : List Choice
  deriving DecidableEq, Repr

/-- Outcome of the awaited network call: either a raised exception
(network, authentication, quota, malformed response — carried as its
message string) or the returned completion object. -/
abbrev ApiOutcome : Type := Except String ChatCompletion

/-- `generate_recommendation` (src/main.py lines 23-52): on success it
returns `chat_completion.choices[0].message.content`; every exception —
including the `IndexError` from `choices[0]` on an empty choice list — is
caught by the `try`/`except`, an error message is displayed, and `None` is
returned. -/
def generate_recommendation (_prompt : String) (outcome : ApiOutcome) : Option String :=
  match outcome with
  | .error _e => none
  | .ok chat_completion =>
    match chat_completion.choices with
    | [] => none
    | c :: _ => some c.message.content

/-- `generate_diet_recommendation` = build the diet prompt, then call the client. -/
def generate_diet_recommendation (pet_info : PetInfo) (outcome : ApiOutcome) : Option String :=
  generate_recommendation (diet_prompt pet_info) outcome

/-- `generate_care_recommendation` = build the care prompt, then call the client. -/
def generate_care_recommendation (pet_info : PetInfo) (outcome : ApiOutcome) : Option String :=
  generate_recommendation (care_prompt pet_info) outcome

/-! ## Report Renderer (`create_pdf`) -/

/-- The ReportLab styles used by `create_pdf`: the custom 24pt title style,
`Heading2`, `Normal` and `Italic`. -/
inductive PStyle where
  | customTitle
  | heading2
  | normal
  | italic
  deriving DecidableEq, Repr

/-- A flowable appended to the `story`: a styled `Paragraph` or a `Spacer`. -/
inductive Flowable where
  | para (style : PStyle) (text : String)
  | spacer
  deriving DecidableEq, Repr

/-- The `pet_info_text` profile summary block of `create_pdf`
(src/main.py lines 234-241). -/
def pet_info_text (p : PetInfo) : String :=
  "\n    Type: " ++ p.type
  ++ "\n    Breed: " ++ p.breed
  ++ "\n    Age: " ++ p.age
  ++ " years\n    Weight: " ++ p.weight
  ++ " kg\n" ++ "    Health Conditions: " ++ orNone p.health_conditions
  ++ "\n" ++ "    Allergies: " ++ orNone p.allergies
  ++ "\n    "

/-- The fixed `disclaimer` paragraph of `create_pdf` (src/main.py lines 256-258). -/
def disclaimer : String :=
  "\n    DISCLAIMER: This report was generated using artificial intelligence. While the recommendations are based on veterinary knowledge, they should not replace professional veterinary advice. Always consult with a qualified veterinarian for your pet's specific needs.\n    "

/-- `create_pdf` (src/main.py lines 216-263), modelled as the `story` list
of flowables that `doc.build` lays out into the PDF buffer. The Python
`recommendations` dict iterates in insertion order, so it is an association
list here; `now` abstracts `datetime.now().strftime("%Y-%m-%d %H:%M:%S")`. -/
def create_pdf (pet_info : PetInfo) (recommendations : List (String × String))
    (now : String) : List Flowable :=
  [Flowable.para .customTitle ("Pet Care Report for " ++ pet_info.name),
   Flowable.para .heading2 "Pet Information",
   Flowable.para .normal (pet_info_text pet_info),
   Flowable.spacer]
  ++ recommendations.flatMap
      (fun tc => [Flowable.para .heading2 tc.1, Flowable.para .normal tc.2, Flowable.spacer])
  ++ [Flowable.para .normal ("Report Generated: " ++ now),
      Flowable.spacer,
      Flowable.para .italic disclaimer]

/-! ## Record Store (`save_pet_data` and the loading in `main`) -/

/-- The state of `pet_data.json`: `none` when the file does not exist,
`some data` when it exists and holds the serialized list `data`. The spec
invariant (§3) guarantees the file, if present, deserializes to a list of
records, so the file content is modelled at that level. -/
abbrev FileState : Type := Option (List PetInfo)

/-- `save_pet_data` (src/main.py lines 290-303): read the existing log
(missing file acts as the empty list), overwrite the caller's dict's
`timestamp` key in place with the fresh stamp `now`, append that same dict,
and rewrite the whole file. The result carries the new file state and the
value of the caller's `pet_data` dict after the in-place mutation. -/
def save_pet_data (pet_data : PetInfo) (now : String) (fs : FileState) :
    FileState × PetInfo :=
  let data : List PetInfo :=
    match fs with
    | some d => d
    | none => []
  let pet_data' := { pet_data with timestamp := now }
  (some (data ++ [pet_data']), pet_data')

/-- The record-loading step of the Health Records tab (src/main.py lines
420-424): when the file exists its parsed content is used, otherwise
nothing is loaded and the displayed log is empty. -/
def loadAll (fs : FileState) : List PetInfo :=
  match fs with
  | some records => records
  | none => []

/-! ## The combined Care Guide tab (tab1 of `main`, src/main.py lines 346-371) -/

/-- Python truthiness of `diet_rec and care_rec`: both must be non-`None`
and non-empty strings. -/
def truthy (o : Option String) : Bool :=
  match o with
  | none => false
  | some s => !(s == "")

/-- Observable result of one press of "Generate Care Recommendations". -/
structure CareGuideResult where
  displayedDiet : Option String
  displayedCare : Option String
  pdfStory : Option (List Flowable)
  store : FileState
  profile : PetInfo

/-- The body of tab1 (src/main.py lines 346-371): run the two sequential
client calls; only if `diet_rec and care_rec` is truthy are the texts
displayed, the PDF built from the two-entry `recommendations` dict, and the
profile persisted via `save_pet_data`. `r1`/`r2` are the two API call
outcomes, `pdfNow`/`saveNow` the clock readings inside `create_pdf` and
`save_pet_data`, and `fs` the record-store file state. `profile` is the
value of the shared `pet_info` dict after the action. -/
def careGuideTab (pet_info : PetInfo) (r1 r2 : ApiOutcome)
    (pdfNow saveNow : String) (fs : FileState) : CareGuideResult :=
  let diet_rec := generate_diet_recommendation pet_info r1
  let care_rec := generate_care_recommendation pet_info r2
  if truthy diet_rec && truthy care_rec then
    let d := diet_rec.getD ""
    let c := care_rec.getD ""
    let recommendations := [("Diet Recommendations", d), ("Care Recommendations", c)]
    let pdf_buffer := create_pdf pet_info recommendations pdfNow
    let saved := save_pet_data pet_info saveNow fs
    { displayedDiet := some d, displayedCare := some c,
      pdfStory := some pdf_buffer, store := saved.1, profile := saved.2 }
  else
    { displayedDiet := none, displayedCare := none,
      pdfStory := none, store := fs, profile := pet_info }

/-- Extracts the title of a `Heading2` paragraph (the style `create_pdf`
gives to every section heading), and nothing from any other flowable. -/
def sectionTitle : Flowable → Option String
  | .para .heading2 t => some t
  | _ => none

/-- The concrete profile of the spec's scenario: Rex the 3-year-old,
28 kg Labrador with no health conditions and a chicken allergy. -/
def rex : PetInfo :=
  { name := "Rex", type := "Dog", breed := "Labrador", age := "3.0",
    weight := "28.0", health_conditions := "", favorite_foods := "",
    allergies := "Chicken", timestamp := "2024-01-01 00:00:00" }

/-- A concrete profile with both optional free-text fields empty. -/
def milo : PetInfo :=
  { name := "Milo", type := "Cat", breed := "Persian", age := "2.0",
    weight := "4.0", health_conditions := "", favorite_foods := "",
    allergies := "", timestamp := "2024-01-01 00:00:00" }

/-- A concrete profile whose allergies value is a marker string that occurs
nowhere in any fixed template text. -/
def buddy : PetInfo :=
  { name := "Buddy", type := "Dog", breed := "Beagle", age := "5.0",
    weight := "12.0", health_conditions := "arthritis",
    favorite_foods := "", allergies := "peanut-dust",
    timestamp := "2024-01-01 00:00:00" }

/-! ## String-containment lemmas -/

theorem isPrefixOf_self_append (p b : List Char) : p.isPrefixOf (p ++ b) = true := by
  induction p with
  | nil => simp [List.isPrefixOf]
  | cons c t ih => simp [List.isPrefixOf, ih]

theorem subListB_of_isPrefixOf {pat l : List Char} (h : pat.isPrefixOf l = true) :
    subListB pat l = true := by
  cases l with
  | nil =>
    cases pat with
    | nil => simp [subListB, List.isEmpty]
    | cons c t => simp [List.isPrefixOf] at h
  | cons c rest => simp [subListB, h]

theorem subListB_cons {pat l : List Char} (c : Char) (h : subListB pat l = true) :
    subListB pat (c :: l) = true := by
  simp [subListB, h]

theorem subListB_append_left {pat l : List Char} (a : List Char)
    (h : subListB pat l = true) : subListB pat (a ++ l) = true := by
  induction a with
  | nil => simpa using h
  | cons c t ih => simpa using subListB_cons c ih

theorem strContains_self_append (pat y : String) :
    strContains (pat ++ y) pat = true := by
  show subListB pat.data (pat ++ y).data = true
  rw [String.data_append]
  exact subListB_of_isPrefixOf (isPrefixOf_self_append pat.data y.data)

theorem strContains_append_left (x : String) {s pat : String}
    (h : strContains s pat = true) : strContains (x ++ s) pat = true := by
  show subListB pat.data (x ++ s).data = true
  rw [String.data_append]
  exact subListB_append_left x.data h

theorem str_append_assoc (a b c : String) : a ++ b ++ c = a ++ (b ++ c) := by
  apply String.ext
  simp [String.data_append]

/-- Splicing lemma used to realign literal chunk boundaries inside a nested
append: if the concrete strings satisfy `a ++ b = c ++ d`, the same holds
with any common tail attached. -/
theorem append_splice {a b c d : String} (h : a ++ b = c ++ d) (rest : String) :
    a ++ (b ++ rest) = c ++ (d ++ rest) := by
  rw [← str_append_assoc, ← str_append_assoc, h]

theorem orNone_empty : orNone "" = "None" := by simp [orNone]

/-! ## Claim theorems -/

/-- C1: for every prompt string, if the underlying API call raises any
exception, `generate_recommendation` catches it at its boundary and returns
`None` to the caller; being a total function of the outcome, it never lets
the fault propagate. -/
theorem claim_C1 (prompt err : String) :
    generate_recommendation prompt (Except.error err) = none := rfl

/-- C3: for every prompt on which the API call succeeds,
`generate_recommendation` returns exactly the first completion's
`message.content`, unmodified; and whenever the Care Guide tab displays a
diet or care text, the displayed text is exactly the value the client
returned. -/
theorem claim_C3 :
    (∀ (prompt : String) (c : Choice) (rest : List Choice),
       generate_recommendation prompt (Except.ok ⟨c :: rest⟩) =
         some c.message.content) ∧
    (∀ (pet : PetInfo) (r1 r2 : ApiOutcome) (t1 t2 : String) (fs : FileState)
       (d : String),
       (careGuideTab pet r1 r2 t1 t2 fs).displayedDiet = some d →
         generate_diet_recommendation pet r1 = some d) ∧
    (∀ (pet : PetInfo) (r1 r2 : ApiOutcome) (t1 t2 : String) (fs : FileState)
       (c : String),
       (careGuideTab pet r1 r2 t1 t2 fs).displayedCare = some c →
         generate_care_recommendation pet r2 = some c) := by
  refine ⟨fun prompt c rest => rfl, ?_, ?_⟩
  · intro pet r1 r2 t1 t2 fs d h
    by_cases hc :
        truthy (generate_diet_recommendation pet r1) &&
          truthy (generate_care_recommendation pet r2)
    · simp only [careGuideTab, hc, if_true] at h
      obtain ⟨rfl⟩ := Option.some.injEq _ _ ▸ h
      cases hd : generate_diet_recommendation pet r1 with
      | none => rw [hd] at hc; simp [truthy] at hc
      | some s => simp [hd]
    · simp [careGuideTab, hc] at h
  · intro pet r1 r2 t1 t2 fs c h
    by_cases hc :
        truthy (generate_diet_recommendation pet r1) &&
          truthy (generate_care_recommendation pet r2)
    · simp only [careGuideTab, hc, if_true] at h
      obtain ⟨rfl⟩ := Option.some.injEq _ _ ▸ h
      cases hd : generate_care_recommendation pet r2 with
      | none => rw [hd] at hc; simp [truthy] at hc
      | some s => simp [hd]
    · simp [careGuideTab, hc] at h

/-- Witness for C3 at a concrete successful pair of calls. -/
theorem claim_C3_witness :
    generate_diet_recommendation rex
        (Except.ok ⟨[⟨⟨"diet text"⟩⟩]⟩) = some "diet text" ∧
    generate_care_recommendation rex
        (Except.ok ⟨[⟨⟨"care text"⟩⟩]⟩) = some "care text" :=
  ⟨claim_C3.2.1 rex (Except.ok ⟨[⟨⟨"diet text"⟩⟩]⟩)
      (Except.ok ⟨[⟨⟨"care text"⟩⟩]⟩) "t1" "t2" none "diet text" rfl,
   claim_C3.2.2 rex (Except.ok ⟨[⟨⟨"diet text"⟩⟩]⟩)
      (Except.ok ⟨[⟨⟨"care text"⟩⟩]⟩) "t1" "t2" none "care text" rfl⟩

/-- C4: if either of the two Recommendation Client calls of the combined
Care Guide action returns an absent result, no PDF is built and the Record
Store state is left untouched. -/
theorem claim_C4 (pet : PetInfo) (r1 r2 : ApiOutcome) (t1 t2 : String)
    (fs : FileState)
    (h : generate_diet_recommendation pet r1 = none ∨
         generate_care_recommendation pet r2 = none) :
    (careGuideTab pet r1 r2 t1 t2 fs).pdfStory = none ∧
    (careGuideTab pet r1 r2 t1 t2 fs).store = fs := by
  cases h with
  | inl h => simp [careGuideTab, h, truthy]
  | inr h => simp [careGuideTab, h, truthy]

/-- Witness for C4: a failed diet call with a successful care call. -/
theorem claim_C4_witness :
    (careGuideTab rex (Except.error "network error")
        (Except.ok ⟨[⟨⟨"care text"⟩⟩]⟩) "t1" "t2" none).pdfStory = none ∧
    (careGuideTab rex (Except.error "network error")
        (Except.ok ⟨[⟨⟨"care text"⟩⟩]⟩) "t1" "t2" none).store = none :=
  claim_C4 rex (Except.error "network error")
    (Except.ok ⟨[⟨⟨"care text"⟩⟩]⟩) "t1" "t2" none (Or.inl rfl)

/-- C5: Record Store round-trip — after `save_pet_data` of profile `p` on
any prior state, loading all records yields a non-empty sequence whose last
element equals `p` except for the freshly assigned timestamp. -/
theorem claim_C5 (p : PetInfo) (now : String) (fs : FileState) :
    loadAll (save_pet_data p now fs).1 ≠ [] ∧
    (loadAll (save_pet_data p now fs).1).getLast? =
      some { p with timestamp := now } := by
  cases fs with
  | none => simp [save_pet_data, loadAll]
  | some d => simp [save_pet_data, loadAll]

/-- Witness for C5 at a concrete profile and the missing-file state. -/
theorem claim_C5_witness :
    loadAll (save_pet_data rex "2024-02-02 12:00:00" none).1 ≠ [] ∧
    (loadAll (save_pet_data rex "2024-02-02 12:00:00" none).1).getLast? =
      some { rex with timestamp := "2024-02-02 12:00:00" } :=
  claim_C5 rex "2024-02-02 12:00:00" none

/-- C6: a missing Record Store file acts as the empty log for both loading
and appending, and loading an empty store yields the empty sequence rather
than a fault. -/
theorem claim_C6 (p : PetInfo) (now : String) :
    loadAll (none : FileState) = [] ∧
    loadAll (some ([] : List PetInfo)) = [] ∧
    (save_pet_data p now none).1 = some [{ p with timestamp := now }] :=
  ⟨rfl, rfl, rfl⟩

/-- C7: appending is strictly additive — one `save_pet_data` grows the log
by exactly one record and leaves the prior records unchanged as its prefix;
two sequential appends from the missing-file state give a log of length 2. -/
theorem claim_C7 (p p1 p2 : PetInfo) (now t1 t2 : String) (fs : FileState) :
    (loadAll (save_pet_data p now fs).1).length = (loadAll fs).length + 1 ∧
    (loadAll (save_pet_data p now fs).1).take (loadAll fs).length = loadAll fs ∧
    (loadAll (save_pet_data p2 t2 (save_pet_data p1 t1 none).1).1).length = 2 := by
  refine ⟨?_, ?_, rfl⟩ <;> cases fs with
  | none => simp [save_pet_data, loadAll]
  | some d => simp [save_pet_data, loadAll, List.take_left]

/-- C10 (implicit): `save_pet_data` mutates the caller's dictionary in
place — afterwards its `timestamp` holds the fresh stamp, every other field
is unchanged, and the record stored at the end of the log is that same
mutated dictionary. -/
theorem claim_C10 (p : PetInfo) (now : String) (fs : FileState) :
    (save_pet_data p now fs).2.timestamp = now ∧
    (save_pet_data p now fs).2.name = p.name ∧
    (save_pet_data p now fs).2.type = p.type ∧
    (save_pet_data p now fs).2.breed = p.breed ∧
    (save_pet_data p now fs).2.age = p.age ∧
    (save_pet_data p now fs).2.weight = p.weight ∧
    (save_pet_data p now fs).2.health_conditions = p.health_conditions ∧
    (save_pet_data p now fs).2.favorite_foods = p.favorite_foods ∧
    (save_pet_data p now fs).2.allergies = p.allergies ∧
    (loadAll (save_pet_data p now fs).1).getLast? =
      some (save_pet_data p now fs).2 := by
  cases fs with
  | none => simp [save_pet_data, loadAll]
  | some d => simp [save_pet_data, loadAll]

theorem filterMap_sectionTitle_flatMap (recs : List (String × String)) :
    (recs.flatMap fun tc =>
       [Flowable.para .heading2 tc.1, Flowable.para .normal tc.2,
        Flowable.spacer]).filterMap sectionTitle = recs.map Prod.fst := by
  induction recs with
  | nil => rfl
  | cons hd tl ih => simp [List.flatMap_cons, List.filterMap_append, sectionTitle, ih]

/-- C8: for every profile and sections mapping, the document story holds
one `Heading2`-titled section per entry of the mapping, the section titles
in insertion order (after the fixed "Pet Information" heading), and always
holds the fixed disclaimer paragraph verbatim. -/
theorem claim_C8 (pet : PetInfo) (recs : List (String × String)) (now : String) :
    (create_pdf pet recs now).filterMap sectionTitle =
      "Pet Information" :: recs.map Prod.fst ∧
    Flowable.para .italic disclaimer ∈ create_pdf pet recs now := by
  constructor
  · simp [create_pdf, List.filterMap_append, sectionTitle,
      filterMap_sectionTitle_flatMap]
  · simp [create_pdf]

/-- C2: an empty `health_conditions` or `allergies` field renders as the
literal "None" in the diet prompt and in the PDF profile summary block; in
particular Rex's diet prompt contains "Allergies: Chicken" and
"Health Conditions: None". -/
theorem claim_C2 (p : PetInfo) :
    (p.health_conditions = "" →
       strContains (diet_prompt p) "Health Conditions: None" = true ∧
       strContains (pet_info_text p) "Health Conditions: None" = true) ∧
    (p.allergies = "" →
       strContains (diet_prompt p) "Allergies: None" = true ∧
       strContains (pet_info_text p) "Allergies: None" = true) ∧
    strContains (diet_prompt rex) "Allergies: Chicken" = true ∧
    strContains (diet_prompt rex) "Health Conditions: None" = true := by
  have hsp1 : ("    Health Conditions: " ++ "None" : String) =
      "    " ++ "Health Conditions: None" := by decide
  have hsp2 : ("    Allergies: " ++ "None" : String) =
      "    " ++ "Allergies: None" := by decide
  have hsp3 : ("    Allergies: " ++ "Chicken" : String) =
      "    " ++ "Allergies: Chicken" := by decide
  refine ⟨?_, ?_, ?_, ?_⟩
  · intro h
    constructor
    · simp only [diet_prompt, h, orNone_empty, str_append_assoc]
      rw [append_splice hsp1]
      repeat
        first
          | exact strContains_self_append _ _
          | apply strContains_append_left
    · simp only [pet_info_text, h, orNone_empty, str_append_assoc]
      rw [append_splice hsp1]
      repeat
        first
          | exact strContains_self_append _ _
          | apply strContains_append_left
  · intro h
    constructor
    · simp only [diet_prompt, h, orNone_empty, str_append_assoc]
      rw [append_splice hsp2]
      repeat
        first
          | exact strContains_self_append _ _
          | apply strContains_append_left
    · simp only [pet_info_text, h, orNone_empty, str_append_assoc]
      rw [append_splice hsp2]
      repeat
        first
          | exact strContains_self_append _ _
          | apply strContains_append_left
  · have h2 : orNone rex.allergies = "Chicken" := by decide
    simp only [diet_prompt, h2, str_append_assoc]
    rw [append_splice hsp3]
    repeat
      first
        | exact strContains_self_append _ _
        | apply strContains_append_left
  · have h1 : orNone rex.health_conditions = "None" := by decide
    simp only [diet_prompt, h1, str_append_assoc]
    rw [append_splice hsp1]
    repeat
      first
        | exact strContains_self_append _ _
        | apply strContains_append_left

/-- Witness for C2 at a profile with both optional fields empty. -/
theorem claim_C2_witness :
    strContains (diet_prompt milo) "Health Conditions: None" = true ∧
    strContains (pet_info_text milo) "Health Conditions: None" = true ∧
    strContains (diet_prompt milo) "Allergies: None" = true ∧
    strContains (pet_info_text milo) "Allergies: None" = true :=
  ⟨((claim_C2 milo).1 rfl).1, ((claim_C2 milo).1 rfl).2,
   ((claim_C2 milo).2.1 rfl).1, ((claim_C2 milo).2.1 rfl).2⟩

/-- C9 counterexample: the emergency template interpolates only species and
breed, so for a profile whose allergies value is the marker "peanut-dust"
the built emergency prompt does not contain that value anywhere. -/
theorem claim_C9_counterexample :
    buddy.allergies = "peanut-dust" ∧
    strContains (emergency_prompt buddy) buddy.allergies = false := by
  refine ⟨rfl, ?_⟩
  decide

/-- C9 as amended: each category's prompt interpolates exactly the slots
its fixed template has — diet: species, breed, age, weight, health
conditions, allergies; care: species, breed, age, weight, health
conditions; emergency: species, breed; training: species, breed, age;
seasonal: the current month, species, breed; comparison: the previous
report's timestamp plus both weights and both health-condition values —
where the two optional free-text fields pass through the `or 'None'`
substitution first. -/
theorem claim_C9_amended (p prev : PetInfo) (month : String) :
    (strContains (diet_prompt p) p.type = true ∧
     strContains (diet_prompt p) p.breed = true ∧
     strContains (diet_prompt p) p.age = true ∧
     strContains (diet_prompt p) p.weight = true ∧
     strContains (diet_prompt p) (orNone p.health_conditions) = true ∧
     strContains (diet_prompt p) (orNone p.allergies) = true) ∧
    (strContains (care_prompt p) p.type = true ∧
     strContains (care_prompt p) p.breed = true ∧
     strContains (care_prompt p) p.age = true ∧
     strContains (care_prompt p) p.weight = true ∧
     strContains (care_prompt p) (orNone p.health_conditions) = true) ∧
    (strContains (emergency_prompt p) p.type = true ∧
     strContains (emergency_prompt p) p.breed = true) ∧
    (strContains (training_prompt p) p.type = true ∧
     strContains (training_prompt p) p.breed = true ∧
     strContains (training_prompt p) p.age = true) ∧
    (strContains (seasonal_prompt month p) month = true ∧
     strContains (seasonal_prompt month p) p.type = true ∧
     strContains (seasonal_prompt month p) p.breed = true) ∧
    (strContains (analysis_prompt p prev) prev.timestamp = true ∧
     strContains (analysis_prompt p prev) prev.weight = true ∧
     strContains (analysis_prompt p prev) (orNone prev.health_conditions) = true ∧
     strContains (analysis_prompt p prev) p.weight = true ∧
     strContains (analysis_prompt p prev) (orNone p.health_conditions) = true) := by
  refine ⟨⟨?_, ?_, ?_, ?_, ?_, ?_⟩, ⟨?_, ?_, ?_, ?_, ?_⟩, ⟨?_, ?_⟩,
    ⟨?_, ?_, ?_⟩, ⟨?_, ?_, ?_⟩, ⟨?_, ?_, ?_, ?_, ?_⟩⟩ <;>
    simp only [diet_prompt, care_prompt, emergency_prompt, training_prompt,
      seasonal_prompt, analysis_prompt, str_append_assoc] <;>
    repeat
      first
        | exact strContains_self_append _ _
        | apply strContains_append_left

end PetHealth
